import Mathlib

/-!
Verification of the multi-source CNPJ consultation engine.

This file gives a shallow embedding of the reconciliation engine found in the
repository's main script: the tax-regime consensus resolver
(`updateTaxConsensus`, `getTaxRegimeInfo`, `getTaxRegimeFromData`), the
three-way race orchestrator (`handleCnpjaResponse`, `handleReceitaWsResponse`,
`handleMinhaReceitaResponse`, `handleFailure`), the per-provider retry
adapters (`consultarReceitaWS`, `consultarMinhaReceitaAPI`,
`consultarCNPJA_API`) and the identifier validator (`validarCNPJ`).
DOM rendering calls are modelled as an emitted event trace; network attempts
are modelled as an environment mapping the attempt number to its outcome.
-/

set_option maxRecDepth 10000

/-- The standardized tax regime labels produced by `getTaxRegimeFromData`:
the strings 'SIMEI', 'Simples', 'Normal', 'Outros' of the source. -/
inductive Regime where
  | SIMEI
  | Simples
  | Normal
  | Outros
deriving DecidableEq

/-- Priority rank of a regime label in the source's fixed order
SIMEI > Simples > Normal > Outros (used only to state theorems). -/
def prioridade : Regime → Nat
  | .SIMEI => 3
  | .Simples => 2
  | .Normal => 1
  | .Outros => 0

/-- A `simei:`/`simples:` sub-object of an API payload; the source reads both
an `optante` and an `optant` spelling, so both are kept as optional fields
(an absent field is `none`, mirroring JavaScript `undefined`). -/
structure OptanteInfo where
  optante : Option Bool := none
  optant : Option Bool := none
deriving DecidableEq

/-- The `company:` sub-object of a CNPJ.A payload. -/
structure CompanyInfo where
  simei : Option OptanteInfo := none
  simples : Option OptanteInfo := none
deriving DecidableEq

/-- The fields of a provider payload that the reconciliation engine reads.
Every field is optional because each provider's record has its own shape and
the source reads all of them through optional chaining. -/
structure ApiData where
  opcao_pelo_mei : Option Bool := none
  opcao_pelo_simples : Option Bool := none
  simei : Option OptanteInfo := none
  simples : Option OptanteInfo := none
  company : Option CompanyInfo := none
  uf : Option String := none
  status : Option String := none
  cnpj : Option String := none
deriving DecidableEq

/-- The consensus tracking state object `taxRegimeConsensus` of the source:
`sources` records `(api, regime)` in arrival order, `confirmed` is the
determined regime (JavaScript `null` before any vote, hence `Option`),
`needsWarning` flags conflicting data. -/
structure TaxRegimeConsensus where
  sources : List (String × Regime)
  confirmed : Option Regime
  needsWarning : Bool
deriving DecidableEq

/-- The initial consensus state: `{ sources: [], confirmed: null,
needsWarning: false }`. -/
def initConsensus : TaxRegimeConsensus :=
  { sources := [], confirmed := none, needsWarning := false }

/-- The priority if-chain of `updateTaxConsensus`:
`regimes.includes('SIMEI') ? 'SIMEI' : regimes.includes('Simples') ? ... `. -/
def confirmedOf (regimes : List Regime) : Regime :=
  if Regime.SIMEI ∈ regimes then Regime.SIMEI
  else if Regime.Simples ∈ regimes then Regime.Simples
  else if Regime.Normal ∈ regimes then Regime.Normal
  else Regime.Outros

/-- Body of `updateTaxConsensus` after the vote has been extracted from the
payload: push the `(api, regime)` vote, recompute `confirmed` by the priority
chain, recompute `needsWarning` as
`votesForConfirmed <= dissentingVotes` where
`votesForConfirmed = regimes.filter(r => r === confirmed).length` and
`dissentingVotes = regimes.length - votesForConfirmed`. -/
def updateTaxConsensusVote (apiName : String) (regime : Regime)
    (c : TaxRegimeConsensus) : TaxRegimeConsensus :=
  let sources := c.sources ++ [(apiName, regime)]
  let regimes := sources.map Prod.snd
  let confirmed := confirmedOf regimes
  let votesForConfirmed := (regimes.filter (fun r => r == confirmed)).length
  let dissentingVotes := regimes.length - votesForConfirmed
  { sources := sources
    confirmed := some confirmed
    needsWarning := decide (votesForConfirmed ≤ dissentingVotes) }

/-- `getTaxRegimeFromData`: extracts the standardized regime label from a
payload. `=== true` on an optional-chained field is `= some true`, and
`=== false` is `= some false`. The `Normal` branch reads `simples?.optant`
(sic) exactly as the source does. -/
def getTaxRegimeFromData (data : Option ApiData) : Regime :=
  match data with
  | none => Regime.Outros
  | some d =>
    if d.opcao_pelo_mei = some true ∨
       (d.simei.bind OptanteInfo.optante) = some true ∨
       ((d.company.bind CompanyInfo.simei).bind OptanteInfo.optant) = some true then
      Regime.SIMEI
    else if d.opcao_pelo_simples = some true ∨
       (d.simples.bind OptanteInfo.optante) = some true ∨
       ((d.company.bind CompanyInfo.simples).bind OptanteInfo.optant) = some true then
      Regime.Simples
    else if d.opcao_pelo_simples = some false ∨
       (d.simples.bind OptanteInfo.optant) = some false ∨
       ((d.company.bind CompanyInfo.simples).bind OptanteInfo.optant) = some false then
      Regime.Normal
    else
      Regime.Outros

/-- `updateTaxConsensus(apiName, data)`: extract the vote and update the
consensus state (the display side effect is modelled at the orchestrator
level). -/
def updateTaxConsensus (apiName : String) (data : ApiData)
    (c : TaxRegimeConsensus) : TaxRegimeConsensus :=
  updateTaxConsensusVote apiName (getTaxRegimeFromData (some data)) c

/-- The `regimeMap` display-text table of `getTaxRegimeInfo`. -/
def regimeMap : Regime → String
  | .SIMEI => "S I M E I"
  | .Simples => "Simples"
  | .Normal => "Trib: Normal"
  | .Outros => "Trib: Outros"

/-- Return value of `getTaxRegimeInfo`: display text and CSS marker. -/
structure RegimeDisplay where
  text : String
  css : String
deriving DecidableEq

/-- `getTaxRegimeInfo(consensus)`: `regimeMap[consensus.confirmed] ||
'Trib: Outros'` (every `regimeMap` value is truthy, so the fallback fires
exactly when `confirmed` is `null`), plus the warning icon when
`needsWarning` is set. -/
def getTaxRegimeInfo (c : TaxRegimeConsensus) : RegimeDisplay :=
  let text := match c.confirmed with
    | some r => regimeMap r
    | none => "Trib: Outros"
  let warningIcon := if c.needsWarning then " ⚠️" else ""
  { text := text ++ warningIcon, css := "tax-regime-bar" }

/-- Folding a whole vote sequence through the consensus update, starting from
the initial state: the cumulative effect of the `updateTaxConsensus` calls of
one request, abstracted over the extracted votes. -/
def foldConsensus (votes : List (String × Regime)) : TaxRegimeConsensus :=
  votes.foldl (fun c v => updateTaxConsensusVote v.1 v.2 c) initConsensus

/-- The three data providers raced by `consultarCNPJ`. -/
inductive Provider where
  | CNPJA
  | ReceitaWS
  | MinhaReceita
deriving DecidableEq

/-- Render-sink events emitted by the orchestrator's handlers: a full card
render (`renderCardFrom...` with the provider tag, its payload and the
consensus passed to the renderer), the state-registrations merge
(`updateCardWithIEData(cnpjaDataCache, uf)`), the dismissible warning banner
(`addWarningMessage`), the dynamic tax-bar update (`updateTaxRegimeDisplay`,
carrying the displayed text), and the terminal all-sources-failed error
(`mostrarErro` inside `handleFailure`). -/
inductive Event where
  | initialRender (api : Provider) (data : ApiData) (consensus : TaxRegimeConsensus)
  | ieUpdate (cnpjaData : Option ApiData) (mainState : Option String)
  | warningMessage (msg : String)
  | consensusDisplay (text : String)
  | allSourcesFailed
deriving DecidableEq

/-- The per-request mutable state of `consultarCNPJ`'s three-way race. -/
structure OrchestratorState where
  cnpjaDataCache : Option ApiData
  receitaWsDataCache : Option ApiData
  minhaReceitaDataCache : Option ApiData
  hasRendered : Bool
  failedApiCount : Nat
  consensus : TaxRegimeConsensus
deriving DecidableEq

/-- The state at the start of one request. -/
def initState : OrchestratorState :=
  { cnpjaDataCache := none
    receitaWsDataCache := none
    minhaReceitaDataCache := none
    hasRendered := false
    failedApiCount := 0
    consensus := initConsensus }

/-- `TOTAL_APIS = 3` of the source. -/
def TOTAL_APIS : Nat := 3

/-- The `updateTaxConsensus` call as seen from the orchestrator: updates the
consensus component of the request state and, when a card is already on
screen (`hasRendered`), emits the dynamic tax-display update
(`updateTaxRegimeDisplay`, which writes `getTaxRegimeInfo(...).text`). -/
def updateTaxConsensusStep (apiName : String) (d : ApiData)
    (s : OrchestratorState) : OrchestratorState × List Event :=
  let c := updateTaxConsensus apiName d s.consensus
  ({ s with consensus := c },
   if s.hasRendered then [Event.consensusDisplay (getTaxRegimeInfo c).text] else [])

/-- `handleFailure`: increment `failedApiCount`; when it reaches
`TOTAL_APIS` emit the terminal all-sources-failed error. -/
def handleFailure (s : OrchestratorState) : OrchestratorState × List Event :=
  let s₂ := { s with failedApiCount := s.failedApiCount + 1 }
  (s₂, if s₂.failedApiCount = TOTAL_APIS then [Event.allSourcesFailed] else [])

/-- `handleCnpjaResponse(data)`: on `null` delegate to `handleFailure`;
otherwise cache the payload, update the consensus, then either merge the
state-registrations data (when ReceitaWS already resolved), or render the
fallback card (when nothing rendered yet), or do nothing more. -/
def handleCnpjaResponse (data : Option ApiData) (s : OrchestratorState) :
    OrchestratorState × List Event :=
  match data with
  | none => handleFailure s
  | some d =>
    let s₁ := { s with cnpjaDataCache := some d }
    let r := updateTaxConsensusStep "CNPJA" d s₁
    match r.1.receitaWsDataCache with
    | some rw => (r.1, r.2 ++ [Event.ieUpdate r.1.cnpjaDataCache rw.uf])
    | none =>
      if r.1.hasRendered then (r.1, r.2)
      else ({ r.1 with hasRendered := true },
            r.2 ++ [Event.initialRender Provider.CNPJA d r.1.consensus])

/-- `handleMinhaReceitaResponse(data)`: on `null` delegate to
`handleFailure`; otherwise cache the payload, update the consensus, and when
ReceitaWS has not resolved and nothing rendered yet, render the fallback
card and add the preliminary-data warning banner. -/
def handleMinhaReceitaResponse (data : Option ApiData) (s : OrchestratorState) :
    OrchestratorState × List Event :=
  match data with
  | none => handleFailure s
  | some d =>
    let s₁ := { s with minhaReceitaDataCache := some d }
    let r := updateTaxConsensusStep "MinhaReceita" d s₁
    if r.1.receitaWsDataCache = none ∧ r.1.hasRendered = false then
      ({ r.1 with hasRendered := true },
       r.2 ++ [Event.initialRender Provider.MinhaReceita d r.1.consensus,
               Event.warningMessage "Exibindo dados preliminares. Atualizando com a fonte principal..."])
    else (r.1, r.2)

/-- `handleReceitaWsResponse(data)`: on `null` delegate to `handleFailure`;
otherwise set `hasRendered`, cache the payload, update the consensus (which
now fires the display update), render the primary card, and merge the
state-registrations data with the authoritative record's `uf`. -/
def handleReceitaWsResponse (data : Option ApiData) (s : OrchestratorState) :
    OrchestratorState × List Event :=
  match data with
  | none => handleFailure s
  | some d =>
    let s₁ := { s with hasRendered := true, receitaWsDataCache := some d }
    let r := updateTaxConsensusStep "ReceitaWS" d s₁
    (r.1, r.2 ++ [Event.initialRender Provider.ReceitaWS d r.1.consensus,
                  Event.ieUpdate r.1.cnpjaDataCache d.uf])

/-- One arrival of provider `p`: dispatch its resolved outcome (the
environment `o` maps each provider to the value its adapter resolved with)
to the matching handler. -/
def stepRace (o : Provider → Option ApiData) (s : OrchestratorState)
    (p : Provider) : OrchestratorState × List Event :=
  match p with
  | .CNPJA => handleCnpjaResponse (o .CNPJA) s
  | .ReceitaWS => handleReceitaWsResponse (o .ReceitaWS) s
  | .MinhaReceita => handleMinhaReceitaResponse (o .MinhaReceita) s

/-- Process a whole arrival order, threading the state and concatenating the
emitted events. -/
def runRaceFrom (o : Provider → Option ApiData) (s : OrchestratorState) :
    List Provider → OrchestratorState × List Event
  | [] => (s, [])
  | p :: rest =>
    let r₁ := stepRace o s p
    let r₂ := runRaceFrom o r₁.1 rest
    (r₂.1, r₁.2 ++ r₂.2)

/-- A full race of one request from the initial state. -/
def runRace (o : Provider → Option ApiData) (order : List Provider) :
    OrchestratorState × List Event :=
  runRaceFrom o initState order

/-- Outcome of one network attempt as the adapter observes it: the fetch
threw, the HTTP result was not ok, or an ok result whose decoded payload is
`result`. -/
inductive AttemptResult where
  | throws
  | notOk
  | ok (result : ApiData)
deriving DecidableEq

/-- `MAX_RETRIES = 3` of `consultarReceitaWS`. -/
def receitaWS_MAX_RETRIES : Nat := 3

/-- `RETRY_DELAY_MS = 1500` of `consultarReceitaWS`. -/
def receitaWS_RETRY_DELAY_MS : Nat := 1500

/-- `MAX_RETRIES = 2` of `consultarMinhaReceitaAPI`. -/
def minhaReceita_MAX_RETRIES : Nat := 2

/-- `RETRY_DELAY_MS = 1500` of `consultarMinhaReceitaAPI`. -/
def minhaReceita_RETRY_DELAY_MS : Nat := 1500

/-- Classification of one `consultarReceitaWS` attempt: the attempt succeeds
exactly on an ok response whose payload does not carry
`status === "ERROR"`; a thrown fetch, a non-ok response, and an embedded
error status all fall through to the retry path. -/
def classifyReceitaWS : AttemptResult → Option ApiData
  | .throws => none
  | .notOk => none
  | .ok result => if result.status ≠ some "ERROR" then some result else none

/-- Classification of one `consultarMinhaReceitaAPI` attempt: ok response
whose payload has a truthy `cnpj` field. -/
def classifyMinhaReceita : AttemptResult → Option ApiData
  | .throws => none
  | .notOk => none
  | .ok result => if result.cnpj.getD "" ≠ "" then some result else none

/-- Classification of one `consultarCNPJA_API` attempt: any ok response
resolves with its decoded payload, anything else with `null`. -/
def classifyCNPJA : AttemptResult → Option ApiData
  | .throws => none
  | .notOk => none
  | .ok result => some result

/-- The `for (attempt = 1; attempt <= MAX_RETRIES; attempt++)` retry loop
shared by `consultarReceitaWS` and `consultarMinhaReceitaAPI`, over an
environment `env` mapping the attempt number to its outcome. Returns the
resolved value together with the number of attempts made and the number of
inter-attempt delays elapsed (a delay runs only when a failed attempt is not
the last one). `fuel` is `maxRetries - attempt + 1`, so the loop structure
is primitive recursion. -/
def adapterLoop (classify : AttemptResult → Option ApiData) (maxRetries : Nat)
    (env : Nat → AttemptResult) : Nat → Nat → Option ApiData × Nat × Nat
  | _, 0 => (none, 0, 0)
  | attempt, fuel + 1 =>
    match classify (env attempt) with
    | some result => (some result, 1, 0)
    | none =>
      if attempt < maxRetries then
        let rest := adapterLoop classify maxRetries env (attempt + 1) fuel
        (rest.1, rest.2.1 + 1, rest.2.2 + 1)
      else (none, 1, 0)

/-- `consultarReceitaWS`: up to 3 attempts, returning the first successfully
decoded non-error payload, `null` after the budget is exhausted. -/
def consultarReceitaWS (env : Nat → AttemptResult) : Option ApiData × Nat × Nat :=
  adapterLoop classifyReceitaWS receitaWS_MAX_RETRIES env 1 receitaWS_MAX_RETRIES

/-- `consultarMinhaReceitaAPI`: up to 2 attempts. -/
def consultarMinhaReceitaAPI (env : Nat → AttemptResult) : Option ApiData × Nat × Nat :=
  adapterLoop classifyMinhaReceita minhaReceita_MAX_RETRIES env 1 minhaReceita_MAX_RETRIES

/-- `consultarCNPJA_API`: a single try/catch around one fetch — exactly one
attempt, no retry, no delay. -/
def consultarCNPJA_API (env : Nat → AttemptResult) : Option ApiData × Nat × Nat :=
  (classifyCNPJA (env 1), 1, 0)

/-- `limparCNPJ`: strip every non-digit character. -/
def limparCNPJ (cnpj : String) : String :=
  String.mk (cnpj.data.filter Char.isDigit)

/-- Numeric value of a digit character (`parseInt(c, 10)` on a digit). -/
def charDigit (c : Char) : Nat :=
  c.toNat - 48

/-- The `/^(\d)\1+$/` test of `validarCNPJ`: one digit followed by one or
more copies of the same digit, spanning the whole string. -/
def todosIguais (s : String) : Bool :=
  match s.data with
  | [] => false
  | c :: rest => c.isDigit && !rest.isEmpty && rest.all (fun x => x == c)

/-- The check-digit accumulation loop of `validarCNPJ`
(`for (i = tamanho; i >= 1; i--) { soma += numeros.charAt(tamanho-i)*pos--;
if (pos < 2) pos = 9 }`), with `i` counting down, `pos` the current weight
and `soma` the accumulator; `ds` holds the digit values of the cleaned
input. -/
def somaLoopGo (ds : List Nat) (tamanho : Nat) : Nat → Nat → Nat → Nat
  | 0, _, soma => soma
  | i + 1, pos, soma =>
    let soma₂ := soma + ds.getD (tamanho - (i + 1)) 0 * pos
    let posDec := pos - 1
    somaLoopGo ds tamanho i (if posDec < 2 then 9 else posDec) soma₂

/-- The weighted sum over the first `tamanho` digits, starting from weight
`tamanho - 7` as the source does. -/
def somaLoop (ds : List Nat) (tamanho : Nat) : Nat :=
  somaLoopGo ds tamanho tamanho (tamanho - 7) 0

/-- `validarCNPJ`: clean the input, reject when not exactly 14 digits or all
digits identical, then verify both check digits with the weighted
modulo-11 rule (`resultado = soma % 11 < 2 ? 0 : 11 - soma % 11`). -/
def validarCNPJ (cnpj : String) : Bool :=
  let cnpjLimpo := limparCNPJ cnpj
  if cnpjLimpo.length ≠ 14 ∨ todosIguais cnpjLimpo then false
  else
    let ds := cnpjLimpo.data.map charDigit
    let soma₁ := somaLoop ds 12
    let resultado₁ := if soma₁ % 11 < 2 then 0 else 11 - soma₁ % 11
    if resultado₁ ≠ ds.getD 12 0 then false
    else
      let soma₂ := somaLoop ds 13
      let resultado₂ := if soma₂ % 11 < 2 then 0 else 11 - soma₂ % 11
      resultado₂ == ds.getD 13 0

/-- The consensus state determined by a full recorded vote list: what
`updateTaxConsensusVote` computes from the pushed `sources` (used to state
the recomputation lemma below). -/
def consensusAfter (sources : List (String × Regime)) : TaxRegimeConsensus :=
  let regimes := sources.map Prod.snd
  let conf := confirmedOf regimes
  let vf := (regimes.filter (fun r => r == conf)).length
  { sources := sources
    confirmed := some conf
    needsWarning := decide (vf ≤ regimes.length - vf) }

theorem foldl_updateVote_eq (vs : List (String × Regime)) :
    ∀ c : TaxRegimeConsensus, vs ≠ [] →
      vs.foldl (fun c v => updateTaxConsensusVote v.1 v.2 c) c =
        consensusAfter (c.sources ++ vs) := by
  induction vs with
  | nil => intro c h; exact absurd rfl h
  | cons v rest ih =>
    intro c _
    cases rest with
    | nil => rfl
    | cons w ws =>
      have step : List.foldl (fun c v => updateTaxConsensusVote v.1 v.2 c) c (v :: w :: ws) =
          List.foldl (fun c v => updateTaxConsensusVote v.1 v.2 c)
            (updateTaxConsensusVote v.1 v.2 c) (w :: ws) := rfl
      rw [step, ih (updateTaxConsensusVote v.1 v.2 c) (by simp)]
      have hs : (updateTaxConsensusVote v.1 v.2 c).sources = c.sources ++ [v] := rfl
      rw [hs, List.append_assoc]
      rfl

/-- Every consensus recomputation is a pure function of the recorded vote
sequence: folding any non-empty vote list from the initial state yields
exactly the state determined by that list. -/
theorem foldConsensus_eq (votes : List (String × Regime)) (hne : votes ≠ []) :
    foldConsensus votes = consensusAfter votes := by
  have := foldl_updateVote_eq votes initConsensus hne
  simpa [foldConsensus, initConsensus] using this

theorem consensusAfter_confirmed (s : List (String × Regime)) :
    (consensusAfter s).confirmed = some (confirmedOf (s.map Prod.snd)) := rfl

theorem consensusAfter_needsWarning (s : List (String × Regime)) :
    (consensusAfter s).needsWarning =
      decide (((s.map Prod.snd).filter (fun r => r == confirmedOf (s.map Prod.snd))).length ≤
        (s.map Prod.snd).length -
          ((s.map Prod.snd).filter (fun r => r == confirmedOf (s.map Prod.snd))).length) := rfl

theorem confirmedOf_simei {l : List Regime} (h : Regime.SIMEI ∈ l) :
    confirmedOf l = Regime.SIMEI := by
  simp [confirmedOf, h]

theorem confirmedOf_mem {l : List Regime} (h : l ≠ []) : confirmedOf l ∈ l := by
  by_cases h1 : Regime.SIMEI ∈ l
  · simp [confirmedOf, h1]
  · by_cases h2 : Regime.Simples ∈ l
    · simp [confirmedOf, h1, h2]
    · by_cases h3 : Regime.Normal ∈ l
      · simp [confirmedOf, h1, h2, h3]
      · simp only [confirmedOf, h1, h2, h3, if_false]
        cases l with
        | nil => exact absurd rfl h
        | cons x xs => cases x <;> simp_all

theorem confirmedOf_max {l : List Regime} : ∀ r ∈ l, prioridade r ≤ prioridade (confirmedOf l) := by
  intro r hr
  by_cases h1 : Regime.SIMEI ∈ l
  · simp only [confirmedOf, h1, if_true]
    cases r <;> simp [prioridade]
  · by_cases h2 : Regime.Simples ∈ l
    · simp only [confirmedOf, h1, h2, if_false, if_true]
      cases r <;> simp_all [prioridade]
    · by_cases h3 : Regime.Normal ∈ l
      · simp only [confirmedOf, h1, h2, h3, if_false, if_true]
        cases r <;> simp_all [prioridade]
      · simp only [confirmedOf, h1, h2, h3, if_false]
        cases r <;> simp_all [prioridade]

/-- C1: for every non-empty vote sequence, the confirmed classification is
the highest-priority label that appears in the sequence at all (it is a
label that was actually voted, and every voted label has priority at most
its priority), and any sequence containing a SIMEI vote confirms SIMEI
regardless of the other votes. -/
theorem claim_C1_priority_confirmed (votes : List (String × Regime)) (hne : votes ≠ []) :
    (foldConsensus votes).confirmed = some (confirmedOf (votes.map Prod.snd)) ∧
    confirmedOf (votes.map Prod.snd) ∈ votes.map Prod.snd ∧
    (∀ r ∈ votes.map Prod.snd, prioridade r ≤ prioridade (confirmedOf (votes.map Prod.snd))) ∧
    (Regime.SIMEI ∈ votes.map Prod.snd → confirmedOf (votes.map Prod.snd) = Regime.SIMEI) := by
  refine ⟨?_, confirmedOf_mem (by simpa using hne), confirmedOf_max, confirmedOf_simei⟩
  rw [foldConsensus_eq votes hne]
  rfl

theorem claim_C1_witness :
    (foldConsensus [("CNPJA", Regime.SIMEI), ("ReceitaWS", Regime.Normal)]).confirmed =
      some (confirmedOf ([("CNPJA", Regime.SIMEI), ("ReceitaWS", Regime.Normal)].map Prod.snd)) ∧
    confirmedOf ([("CNPJA", Regime.SIMEI), ("ReceitaWS", Regime.Normal)].map Prod.snd) ∈
      [("CNPJA", Regime.SIMEI), ("ReceitaWS", Regime.Normal)].map Prod.snd ∧
    (∀ r ∈ [("CNPJA", Regime.SIMEI), ("ReceitaWS", Regime.Normal)].map Prod.snd,
      prioridade r ≤ prioridade (confirmedOf ([("CNPJA", Regime.SIMEI), ("ReceitaWS", Regime.Normal)].map Prod.snd))) ∧
    (Regime.SIMEI ∈ [("CNPJA", Regime.SIMEI), ("ReceitaWS", Regime.Normal)].map Prod.snd →
      confirmedOf ([("CNPJA", Regime.SIMEI), ("ReceitaWS", Regime.Normal)].map Prod.snd) = Regime.SIMEI) :=
  claim_C1_priority_confirmed [("CNPJA", Regime.SIMEI), ("ReceitaWS", Regime.Normal)] (by decide)

/-- C2: the agreement flag is set exactly when the count of votes equal to
the confirmed label is not strictly greater than the count of dissenting
votes; votes [Simples, Normal] give confirmed Simples with the flag set,
[Normal, Normal, Simples] give confirmed Simples with the flag set, and a
lone [SIMEI] vote gives confirmed SIMEI with the flag clear. -/
theorem claim_C2_agreement_flag :
    (∀ votes : List (String × Regime), votes ≠ [] →
      ((foldConsensus votes).needsWarning = true ↔
        ¬ ((votes.map Prod.snd).length -
            ((votes.map Prod.snd).filter (fun r => r == confirmedOf (votes.map Prod.snd))).length <
           ((votes.map Prod.snd).filter (fun r => r == confirmedOf (votes.map Prod.snd))).length))) ∧
    ((foldConsensus [("CNPJA", Regime.Simples), ("MinhaReceita", Regime.Normal)]).confirmed =
        some Regime.Simples ∧
      (foldConsensus [("CNPJA", Regime.Simples), ("MinhaReceita", Regime.Normal)]).needsWarning = true) ∧
    ((foldConsensus [("CNPJA", Regime.Normal), ("ReceitaWS", Regime.Normal),
        ("MinhaReceita", Regime.Simples)]).confirmed = some Regime.Simples ∧
      (foldConsensus [("CNPJA", Regime.Normal), ("ReceitaWS", Regime.Normal),
        ("MinhaReceita", Regime.Simples)]).needsWarning = true) ∧
    ((foldConsensus [("ReceitaWS", Regime.SIMEI)]).confirmed = some Regime.SIMEI ∧
      (foldConsensus [("ReceitaWS", Regime.SIMEI)]).needsWarning = false) := by
  refine ⟨?_, by decide, by decide, by decide⟩
  intro votes hne
  rw [foldConsensus_eq votes hne, consensusAfter_needsWarning]
  have hle := List.length_filter_le
    (fun r => r == confirmedOf (votes.map Prod.snd)) (votes.map Prod.snd)
  simp only [decide_eq_true_eq]
  omega

theorem claim_C2_witness :
    (foldConsensus [("ReceitaWS", Regime.SIMEI)]).needsWarning = true ↔
      ¬ (([("ReceitaWS", Regime.SIMEI)].map Prod.snd).length -
          (([("ReceitaWS", Regime.SIMEI)].map Prod.snd).filter
            (fun r => r == confirmedOf ([("ReceitaWS", Regime.SIMEI)].map Prod.snd))).length <
         (([("ReceitaWS", Regime.SIMEI)].map Prod.snd).filter
            (fun r => r == confirmedOf ([("ReceitaWS", Regime.SIMEI)].map Prod.snd))).length) :=
  claim_C2_agreement_flag.1 [("ReceitaWS", Regime.SIMEI)] (by decide)

/-- C3: with zero votes the consensus state is the initial one, whose
display is exactly the default label's display ("Trib: Outros", the Outros
entry of the display table) with the attention flag clear; and for every
non-empty vote sequence the confirmed label is one actually voted (no
default label is substituted), and the two sides of the agreement
computation partition exactly the recorded votes — no default vote counts
toward either side. -/
theorem claim_C3_zero_votes_default :
    initConsensus.confirmed = none ∧
    initConsensus.needsWarning = false ∧
    (getTaxRegimeInfo initConsensus).text = regimeMap Regime.Outros ∧
    getTaxRegimeInfo initConsensus =
      getTaxRegimeInfo { sources := [], confirmed := some Regime.Outros, needsWarning := false } ∧
    (∀ votes : List (String × Regime), votes ≠ [] →
      ∃ r, (foldConsensus votes).confirmed = some r ∧ r ∈ votes.map Prod.snd ∧
        ((votes.map Prod.snd).filter (fun x => x == r)).length +
          ((votes.map Prod.snd).length -
            ((votes.map Prod.snd).filter (fun x => x == r)).length) =
          (votes.map Prod.snd).length) := by
  refine ⟨rfl, rfl, by decide, by decide, ?_⟩
  intro votes hne
  refine ⟨confirmedOf (votes.map Prod.snd), ?_, confirmedOf_mem (by simpa using hne), ?_⟩
  · rw [foldConsensus_eq votes hne]; rfl
  · have hle := List.length_filter_le
      (fun x => x == confirmedOf (votes.map Prod.snd)) (votes.map Prod.snd)
    omega

theorem claim_C3_witness :
    ∃ r, (foldConsensus [("MinhaReceita", Regime.Normal)]).confirmed = some r ∧
      r ∈ [("MinhaReceita", Regime.Normal)].map Prod.snd ∧
      (([("MinhaReceita", Regime.Normal)].map Prod.snd).filter (fun x => x == r)).length +
        (([("MinhaReceita", Regime.Normal)].map Prod.snd).length -
          (([("MinhaReceita", Regime.Normal)].map Prod.snd).filter (fun x => x == r)).length) =
        ([("MinhaReceita", Regime.Normal)].map Prod.snd).length :=
  claim_C3_zero_votes_default.2.2.2.2 [("MinhaReceita", Regime.Normal)] (by decide)

/-- C10: the consensus outcome is insensitive to arrival order — for any two
permutations of the same vote multiset, the final confirmed label and the
final agreement flag coincide. -/
theorem claim_C10_order_insensitive (l₁ l₂ : List (String × Regime)) (h : l₁.Perm l₂) :
    (foldConsensus l₁).confirmed = (foldConsensus l₂).confirmed ∧
    (foldConsensus l₁).needsWarning = (foldConsensus l₂).needsWarning := by
  rcases eq_or_ne l₁ [] with rfl | hne
  · rw [h.symm.eq_nil]
    exact ⟨rfl, rfl⟩
  · have hne₂ : l₂ ≠ [] := by
      intro hh
      exact hne (by rw [hh] at h; exact h.eq_nil)
    have hmap : (l₁.map Prod.snd).Perm (l₂.map Prod.snd) := h.map Prod.snd
    have hconf : confirmedOf (l₁.map Prod.snd) = confirmedOf (l₂.map Prod.snd) := by
      by_cases k1 : Regime.SIMEI ∈ l₂.map Prod.snd
      · simp [confirmedOf, k1, hmap.mem_iff.mpr k1]
      · have n1 : Regime.SIMEI ∉ l₁.map Prod.snd := fun x => k1 (hmap.mem_iff.mp x)
        by_cases k2 : Regime.Simples ∈ l₂.map Prod.snd
        · simp [confirmedOf, k1, k2, n1, hmap.mem_iff.mpr k2]
        · have n2 : Regime.Simples ∉ l₁.map Prod.snd := fun x => k2 (hmap.mem_iff.mp x)
          by_cases k3 : Regime.Normal ∈ l₂.map Prod.snd
          · simp [confirmedOf, k1, k2, k3, n1, n2, hmap.mem_iff.mpr k3]
          · have n3 : Regime.Normal ∉ l₁.map Prod.snd := fun x => k3 (hmap.mem_iff.mp x)
            simp [confirmedOf, k1, k2, k3, n1, n2, n3]
    have hlen : (l₁.map Prod.snd).length = (l₂.map Prod.snd).length := hmap.length_eq
    have hvf : ((l₁.map Prod.snd).filter
        (fun r => r == confirmedOf (l₂.map Prod.snd))).length =
        ((l₂.map Prod.snd).filter
        (fun r => r == confirmedOf (l₂.map Prod.snd))).length :=
      (hmap.filter _).length_eq
    rw [foldConsensus_eq l₁ hne, foldConsensus_eq l₂ hne₂]
    constructor
    · rw [consensusAfter_confirmed, consensusAfter_confirmed, hconf]
    · rw [consensusAfter_needsWarning, consensusAfter_needsWarning, hconf, hvf, hlen]

theorem claim_C10_witness :
    (foldConsensus [("CNPJA", Regime.Simples), ("ReceitaWS", Regime.Normal)]).confirmed =
      (foldConsensus [("ReceitaWS", Regime.Normal), ("CNPJA", Regime.Simples)]).confirmed ∧
    (foldConsensus [("CNPJA", Regime.Simples), ("ReceitaWS", Regime.Normal)]).needsWarning =
      (foldConsensus [("ReceitaWS", Regime.Normal), ("CNPJA", Regime.Simples)]).needsWarning :=
  claim_C10_order_insensitive _ _ (List.Perm.swap _ _ _)

theorem checkDigitPair (a b c d : Nat) :
    ((if a ≠ c then false else (b == d : Bool)) = true) ↔ (a = c ∧ b = d) := by
  by_cases h : a = c <;> simp [h]

theorem somaLoop12_unfold (ds : List Nat) : somaLoop ds 12 =
    ds.getD 0 0 * 5 + ds.getD 1 0 * 4 + ds.getD 2 0 * 3 + ds.getD 3 0 * 2 +
    ds.getD 4 0 * 9 + ds.getD 5 0 * 8 + ds.getD 6 0 * 7 + ds.getD 7 0 * 6 +
    ds.getD 8 0 * 5 + ds.getD 9 0 * 4 + ds.getD 10 0 * 3 + ds.getD 11 0 * 2 := by
  simp [somaLoop, somaLoopGo]

theorem somaLoop13_unfold (ds : List Nat) : somaLoop ds 13 =
    ds.getD 0 0 * 6 + ds.getD 1 0 * 5 + ds.getD 2 0 * 4 + ds.getD 3 0 * 3 +
    ds.getD 4 0 * 2 + ds.getD 5 0 * 9 + ds.getD 6 0 * 8 + ds.getD 7 0 * 7 +
    ds.getD 8 0 * 6 + ds.getD 9 0 * 5 + ds.getD 10 0 * 4 + ds.getD 11 0 * 3 +
    ds.getD 12 0 * 2 := by
  simp [somaLoop, somaLoopGo]

/-- C9: the validator rejects any input without exactly 14 digits after
stripping, rejects 14 identical digits (in particular the masked repeated
input), and otherwise accepts exactly when both check digits computed by the
standard weighted modulo-11 rule (weights 5,4,3,2,9,8,7,6,5,4,3,2 and
6,5,4,3,2,9,8,7,6,5,4,3,2) match the supplied 13th and 14th digits; a
correct CNPJ validates and mutating either check digit invalidates it. -/
theorem claim_C9_validarCNPJ :
    (∀ s : String, (limparCNPJ s).length ≠ 14 → validarCNPJ s = false) ∧
    (∀ s : String, todosIguais (limparCNPJ s) = true → validarCNPJ s = false) ∧
    (validarCNPJ "11.111.111/1111-11" = false) ∧
    (∀ s : String, (limparCNPJ s).length = 14 → todosIguais (limparCNPJ s) = false →
      (validarCNPJ s = true ↔
        (let ds := (limparCNPJ s).data.map charDigit
         let soma₁ := ds.getD 0 0 * 5 + ds.getD 1 0 * 4 + ds.getD 2 0 * 3 + ds.getD 3 0 * 2 +
           ds.getD 4 0 * 9 + ds.getD 5 0 * 8 + ds.getD 6 0 * 7 + ds.getD 7 0 * 6 +
           ds.getD 8 0 * 5 + ds.getD 9 0 * 4 + ds.getD 10 0 * 3 + ds.getD 11 0 * 2
         let soma₂ := ds.getD 0 0 * 6 + ds.getD 1 0 * 5 + ds.getD 2 0 * 4 + ds.getD 3 0 * 3 +
           ds.getD 4 0 * 2 + ds.getD 5 0 * 9 + ds.getD 6 0 * 8 + ds.getD 7 0 * 7 +
           ds.getD 8 0 * 6 + ds.getD 9 0 * 5 + ds.getD 10 0 * 4 + ds.getD 11 0 * 3 +
           ds.getD 12 0 * 2
         (if soma₁ % 11 < 2 then 0 else 11 - soma₁ % 11) = ds.getD 12 0 ∧
         (if soma₂ % 11 < 2 then 0 else 11 - soma₂ % 11) = ds.getD 13 0))) ∧
    (validarCNPJ "11.222.333/0001-81" = true) ∧
    (validarCNPJ "11222333000191" = false) ∧
    (validarCNPJ "11222333000180" = false) := by
  refine ⟨?_, ?_, by decide, ?_, by decide, by decide, by decide⟩
  · intro s h
    simp [validarCNPJ, h]
  · intro s h
    simp [validarCNPJ, h]
  · intro s h1 h2
    have hcond : ¬((limparCNPJ s).length ≠ 14 ∨ todosIguais (limparCNPJ s) = true) := by
      simp [h1, h2]
    simp only [validarCNPJ, if_neg hcond, somaLoop12_unfold, somaLoop13_unfold]
    exact checkDigitPair _ _ _ _

theorem claim_C9_witness : validarCNPJ "123" = false :=
  claim_C9_validarCNPJ.1 "123" (by decide)

theorem classifyReceitaWS_eq_some {r : AttemptResult} {d : ApiData}
    (h : classifyReceitaWS r = some d) :
    r = AttemptResult.ok d ∧ d.status ≠ some "ERROR" := by
  cases r with
  | throws => simp [classifyReceitaWS] at h
  | notOk => simp [classifyReceitaWS] at h
  | ok result =>
    simp only [classifyReceitaWS] at h
    split at h
    · next hs =>
      injection h with h
      subst h
      exact ⟨rfl, hs⟩
    · exact absurd h (by simp)

theorem adapterLoop_bounds (classify : AttemptResult → Option ApiData) (m : Nat)
    (env : Nat → AttemptResult) :
    ∀ fuel attempt, attempt + fuel = m + 1 →
      (adapterLoop classify m env attempt fuel).2.1 ≤ fuel ∧
      (adapterLoop classify m env attempt fuel).2.2 ≤ fuel - 1 := by
  intro fuel
  induction fuel with
  | zero => intro attempt _; simp [adapterLoop]
  | succ f ih =>
    intro attempt hinv
    simp only [adapterLoop]
    cases classify (env attempt) with
    | some result => simp
    | none =>
      simp only
      by_cases hlt : attempt < m
      · have hrest := ih (attempt + 1) (by omega)
        simp [if_pos hlt]
        omega
      · simp [if_neg hlt]

/-- C8: for `consultarReceitaWS` (the adapter with `maxAttempts = 3`):
an attempt fails exactly when the fetch throws, the HTTP result is not ok,
or the ok-decoded payload carries `status === "ERROR"` (an embedded-error
envelope is a failed attempt); if attempts 1 and 2 fail and attempt 3 is a
well-formed non-error payload the adapter resolves with attempt 3's data
after 3 attempts and exactly 2 inter-attempt delays; when all 3 attempts
fail it resolves `null` (a value, never an exception) after 3 attempts and
2 delays; and any successful resolution carries a payload that some attempt
returned without the embedded error status. -/
theorem claim_C8_receitaws_retry :
    (∀ r : AttemptResult, classifyReceitaWS r = none ↔
      (r = AttemptResult.throws ∨ r = AttemptResult.notOk ∨
        ∃ d, r = AttemptResult.ok d ∧ d.status = some "ERROR")) ∧
    (∀ (env : Nat → AttemptResult) (d : ApiData),
      classifyReceitaWS (env 1) = none → classifyReceitaWS (env 2) = none →
      env 3 = AttemptResult.ok d → d.status ≠ some "ERROR" →
      consultarReceitaWS env = (some d, 3, 2)) ∧
    (∀ env : Nat → AttemptResult,
      classifyReceitaWS (env 1) = none → classifyReceitaWS (env 2) = none →
      classifyReceitaWS (env 3) = none → consultarReceitaWS env = (none, 3, 2)) ∧
    (∀ (env : Nat → AttemptResult) (d : ApiData), (consultarReceitaWS env).1 = some d →
      ∃ i, 1 ≤ i ∧ i ≤ 3 ∧ env i = AttemptResult.ok d ∧ d.status ≠ some "ERROR") := by
  refine ⟨?_, ?_, ?_, ?_⟩
  · intro r
    cases r with
    | throws => simp [classifyReceitaWS]
    | notOk => simp [classifyReceitaWS]
    | ok result =>
      by_cases hs : result.status = some "ERROR"
      · simp only [classifyReceitaWS, hs]
        exact ⟨fun _ => Or.inr (Or.inr ⟨result, rfl, hs⟩), fun _ => by simp⟩
      · simp [classifyReceitaWS, hs]
  · intro env d h1 h2 h3 h4
    have hc3 : classifyReceitaWS (env 3) = some d := by
      rw [h3]; simp [classifyReceitaWS, h4]
    simp [consultarReceitaWS, receitaWS_MAX_RETRIES, adapterLoop, h1, h2, hc3]
  · intro env h1 h2 h3
    simp [consultarReceitaWS, receitaWS_MAX_RETRIES, adapterLoop, h1, h2, h3]
  · intro env d h
    cases h1 : classifyReceitaWS (env 1) with
    | some d1 =>
      have : (consultarReceitaWS env).1 = some d1 := by
        simp [consultarReceitaWS, receitaWS_MAX_RETRIES, adapterLoop, h1]
      rw [this] at h
      injection h with h
      subst h
      obtain ⟨he, hs⟩ := classifyReceitaWS_eq_some h1
      exact ⟨1, by omega, by omega, he, hs⟩
    | none =>
      cases h2 : classifyReceitaWS (env 2) with
      | some d2 =>
        have : (consultarReceitaWS env).1 = some d2 := by
          simp [consultarReceitaWS, receitaWS_MAX_RETRIES, adapterLoop, h1, h2]
        rw [this] at h
        injection h with h
        subst h
        obtain ⟨he, hs⟩ := classifyReceitaWS_eq_some h2
        exact ⟨2, by omega, by omega, he, hs⟩
      | none =>
        cases h3 : classifyReceitaWS (env 3) with
        | some d3 =>
          have : (consultarReceitaWS env).1 = some d3 := by
            simp [consultarReceitaWS, receitaWS_MAX_RETRIES, adapterLoop, h1, h2, h3]
          rw [this] at h
          injection h with h
          subst h
          obtain ⟨he, hs⟩ := classifyReceitaWS_eq_some h3
          exact ⟨3, by omega, by omega, he, hs⟩
        | none =>
          have : (consultarReceitaWS env).1 = none := by
            simp [consultarReceitaWS, receitaWS_MAX_RETRIES, adapterLoop, h1, h2, h3]
          rw [this] at h
          exact absurd h (by simp)

theorem claim_C8_witness :
    consultarReceitaWS (fun i => if i = 3 then AttemptResult.ok {} else AttemptResult.throws) =
      (some {}, 3, 2) :=
  claim_C8_receitaws_retry.2.1
    (fun i => if i = 3 then AttemptResult.ok {} else AttemptResult.throws) {}
    (by decide) (by decide) (by decide) (by decide)

/-- C7 counterexample: the authoritative provider — the one whose success
always re-renders over a prior view, i.e. ReceitaWS — has an adapter that
makes 3 attempts on an all-failing environment, not exactly 1 as the claim
states. -/
theorem claim_C7_counterexample :
    (consultarReceitaWS (fun _ => AttemptResult.throws)).2.1 = 3 ∧
    (consultarReceitaWS (fun _ => AttemptResult.throws)).2.1 ≠ 1 ∧
    ((handleReceitaWsResponse (some {}) { initState with hasRendered := true }).2.countP
      (fun e => match e with
        | Event.initialRender Provider.ReceitaWS _ _ => true
        | _ => false)) = 1 := by
  exact ⟨by decide, by decide, by decide⟩

/-- C7 amended: the authoritative provider (ReceitaWS, whose success always
emits a full render regardless of prior state) retries up to 3 attempts
with a 1.5-second delay; the CNPJ.A adapter makes exactly 1 attempt with no
retry and no delay; the MinhaReceita adapter retries up to 2 attempts with
a 1.5-second delay. -/
theorem claim_C7_amended :
    receitaWS_MAX_RETRIES = 3 ∧ receitaWS_RETRY_DELAY_MS = 1500 ∧
    minhaReceita_MAX_RETRIES = 2 ∧ minhaReceita_RETRY_DELAY_MS = 1500 ∧
    (∀ env : Nat → AttemptResult,
      (consultarCNPJA_API env).2.1 = 1 ∧ (consultarCNPJA_API env).2.2 = 0) ∧
    (∀ env : Nat → AttemptResult,
      (consultarReceitaWS env).2.1 ≤ 3 ∧ (consultarReceitaWS env).2.2 ≤ 2) ∧
    (∀ env : Nat → AttemptResult,
      (consultarMinhaReceitaAPI env).2.1 ≤ 2 ∧ (consultarMinhaReceitaAPI env).2.2 ≤ 1) ∧
    (∀ (s : OrchestratorState) (d : ApiData),
      ∃ c, Event.initialRender Provider.ReceitaWS d c ∈ (handleReceitaWsResponse (some d) s).2) := by
  refine ⟨rfl, rfl, rfl, rfl, fun env => ⟨rfl, rfl⟩, ?_, ?_, ?_⟩
  · intro env
    have h := adapterLoop_bounds classifyReceitaWS receitaWS_MAX_RETRIES env receitaWS_MAX_RETRIES 1 (by omega)
    have e1 : (consultarReceitaWS env).2.1 =
        (adapterLoop classifyReceitaWS receitaWS_MAX_RETRIES env 1 receitaWS_MAX_RETRIES).2.1 := rfl
    have e2 : (consultarReceitaWS env).2.2 =
        (adapterLoop classifyReceitaWS receitaWS_MAX_RETRIES env 1 receitaWS_MAX_RETRIES).2.2 := rfl
    have hm : receitaWS_MAX_RETRIES = 3 := rfl
    rw [e1, e2, hm]
    rw [hm] at h
    omega
  · intro env
    have h := adapterLoop_bounds classifyMinhaReceita minhaReceita_MAX_RETRIES env minhaReceita_MAX_RETRIES 1 (by omega)
    have e1 : (consultarMinhaReceitaAPI env).2.1 =
        (adapterLoop classifyMinhaReceita minhaReceita_MAX_RETRIES env 1 minhaReceita_MAX_RETRIES).2.1 := rfl
    have e2 : (consultarMinhaReceitaAPI env).2.2 =
        (adapterLoop classifyMinhaReceita minhaReceita_MAX_RETRIES env 1 minhaReceita_MAX_RETRIES).2.2 := rfl
    have hm : minhaReceita_MAX_RETRIES = 2 := rfl
    rw [e1, e2, hm]
    rw [hm] at h
    omega
  · intro s d
    refine ⟨updateTaxConsensus "ReceitaWS" d s.consensus, ?_⟩
    simp [handleReceitaWsResponse, updateTaxConsensusStep]

theorem claim_C7_witness :
    (consultarCNPJA_API (fun _ => AttemptResult.notOk)).2.1 = 1 ∧
    (consultarCNPJA_API (fun _ => AttemptResult.notOk)).2.2 = 0 :=
  claim_C7_amended.2.2.2.2.1 (fun _ => AttemptResult.notOk)

theorem stepRace_failedApiCount (o : Provider → Option ApiData)
    (s : OrchestratorState) (p : Provider) :
    (stepRace o s p).1.failedApiCount =
      s.failedApiCount + (if o p = none then 1 else 0) := by
  cases p with
  | CNPJA =>
    cases ho : o Provider.CNPJA with
    | none => simp [stepRace, handleCnpjaResponse, handleFailure, ho]
    | some d =>
      simp only [stepRace, handleCnpjaResponse, ho, updateTaxConsensusStep]
      split
      · simp
      · split <;> simp
  | ReceitaWS =>
    cases ho : o Provider.ReceitaWS with
    | none => simp [stepRace, handleReceitaWsResponse, handleFailure, ho]
    | some d => simp [stepRace, handleReceitaWsResponse, ho, updateTaxConsensusStep]
  | MinhaReceita =>
    cases ho : o Provider.MinhaReceita with
    | none => simp [stepRace, handleMinhaReceitaResponse, handleFailure, ho]
    | some d =>
      simp only [stepRace, handleMinhaReceitaResponse, ho, updateTaxConsensusStep]
      split <;> simp

theorem stepRace_asf_count (o : Provider → Option ApiData)
    (s : OrchestratorState) (p : Provider) :
    ((stepRace o s p).2.count Event.allSourcesFailed) =
      if o p = none ∧ s.failedApiCount + 1 = 3 then 1 else 0 := by
  cases p with
  | CNPJA =>
    cases ho : o Provider.CNPJA with
    | none =>
      simp only [stepRace, handleCnpjaResponse, handleFailure, ho, TOTAL_APIS]
      split <;> simp_all
    | some d =>
      simp only [stepRace, handleCnpjaResponse, ho, updateTaxConsensusStep]
      split
      · split <;> simp_all [List.count_append, List.count_cons]
      · split
        · split <;> simp_all [List.count_append, List.count_cons]
        · split <;> simp_all [List.count_append, List.count_cons]
  | ReceitaWS =>
    cases ho : o Provider.ReceitaWS with
    | none =>
      simp only [stepRace, handleReceitaWsResponse, handleFailure, ho, TOTAL_APIS]
      split <;> simp_all
    | some d =>
      simp only [stepRace, handleReceitaWsResponse, ho, updateTaxConsensusStep]
      split <;> simp_all [List.count_append, List.count_cons]
  | MinhaReceita =>
    cases ho : o Provider.MinhaReceita with
    | none =>
      simp only [stepRace, handleMinhaReceitaResponse, handleFailure, ho, TOTAL_APIS]
      split <;> simp_all
    | some d =>
      simp only [stepRace, handleMinhaReceitaResponse, ho, updateTaxConsensusStep]
      split <;> split <;> simp_all [List.count_append, List.count_cons]

theorem runRaceFrom_asf_count (o : Provider → Option ApiData) :
    ∀ (order : List Provider) (s : OrchestratorState),
      ((runRaceFrom o s order).2.count Event.allSourcesFailed) =
        if s.failedApiCount < 3 ∧
            3 ≤ s.failedApiCount + order.countP (fun p => (o p).isNone) then 1 else 0 := by
  intro order
  induction order with
  | nil =>
    intro s
    simp only [runRaceFrom, List.count_nil, List.countP_nil]
    split_ifs with h
    · omega
    · rfl
  | cons p rest ih =>
    intro s
    simp only [runRaceFrom, List.count_append, List.countP_cons]
    rw [stepRace_asf_count, ih (stepRace o s p).1, stepRace_failedApiCount]
    cases ho : o p with
    | none =>
      simp only [ho, Option.isNone_none, if_pos rfl, true_and]
      split_ifs <;> (simp_all; try omega)
    | some d =>
      simp only [ho, Option.isNone_some]
      split_ifs <;> (simp_all; try omega)

/-- C6: for every arrival order of the three providers, the terminal
all-sources-failed signal is emitted exactly once when all three adapters
resolved `null`, and never otherwise (in particular it is never emitted when
fewer than three adapters fail, and never emitted twice). -/
theorem claim_C6_all_sources_failed (o : Provider → Option ApiData)
    (order : List Provider)
    (hperm : order.Perm [Provider.CNPJA, Provider.ReceitaWS, Provider.MinhaReceita]) :
    ((runRace o order).2.count Event.allSourcesFailed) =
      if o Provider.CNPJA = none ∧ o Provider.ReceitaWS = none ∧
          o Provider.MinhaReceita = none then 1 else 0 := by
  rw [runRace, runRaceFrom_asf_count]
  have hcount : order.countP (fun p => (o p).isNone) =
      List.countP (fun p => (o p).isNone)
        [Provider.CNPJA, Provider.ReceitaWS, Provider.MinhaReceita] :=
    hperm.countP_eq _
  rw [hcount]
  simp only [initState, List.countP_cons, List.countP_nil]
  cases hc : o Provider.CNPJA <;> cases hr : o Provider.ReceitaWS <;>
    cases hm : o Provider.MinhaReceita <;> simp [hc, hr, hm]

theorem claim_C6_witness :
    ((runRace (fun _ => none)
        [Provider.MinhaReceita, Provider.CNPJA, Provider.ReceitaWS]).2.count
      Event.allSourcesFailed) =
      if (fun _ => (none : Option ApiData)) Provider.CNPJA = none ∧
          (fun _ => (none : Option ApiData)) Provider.ReceitaWS = none ∧
          (fun _ => (none : Option ApiData)) Provider.MinhaReceita = none then 1 else 0 :=
  claim_C6_all_sources_failed (fun _ => none)
    [Provider.MinhaReceita, Provider.CNPJA, Provider.ReceitaWS] (by decide)

/-- C5 counterexample: in the arrival order where CNPJ.A succeeds first
(before any render and before the authoritative provider resolved), the run
performs exactly one full render from CNPJ.A but emits no preliminary-data
warning banner — refuting the claim that a first-rendering non-authoritative
provider always marks the preliminary-data notice. -/
theorem claim_C5_counterexample :
    ((runRace (fun p => match p with | Provider.CNPJA => some {} | _ => none)
        [Provider.CNPJA, Provider.ReceitaWS, Provider.MinhaReceita]).2.countP
      (fun e => match e with
        | Event.initialRender Provider.CNPJA _ _ => true
        | _ => false)) = 1 ∧
    ((runRace (fun p => match p with | Provider.CNPJA => some {} | _ => none)
        [Provider.CNPJA, Provider.ReceitaWS, Provider.MinhaReceita]).2.countP
      (fun e => match e with
        | Event.warningMessage _ => true
        | _ => false)) = 0 := by
  exact ⟨by decide, by decide⟩

/-- C5 amended: when MinhaReceita succeeds before any render and before the
authoritative provider resolved, it renders the full fallback view and marks
the preliminary-data notice; when CNPJ.A succeeds in that situation it
renders the full fallback view but does not mark the notice; and a
non-authoritative success arriving after a render never triggers a full
render — it contributes only its consensus vote (the tax-display update)
plus, for CNPJ.A when the authoritative record has already resolved, the
state-registrations merge. -/
theorem claim_C5_amended :
    (∀ (s : OrchestratorState) (d : ApiData),
      s.hasRendered = false → s.receitaWsDataCache = none →
      (handleMinhaReceitaResponse (some d) s).2 =
        [Event.initialRender Provider.MinhaReceita d
            (updateTaxConsensus "MinhaReceita" d s.consensus),
         Event.warningMessage
            "Exibindo dados preliminares. Atualizando com a fonte principal..."] ∧
      (handleMinhaReceitaResponse (some d) s).1.hasRendered = true) ∧
    (∀ (s : OrchestratorState) (d : ApiData),
      s.hasRendered = false → s.receitaWsDataCache = none →
      (handleCnpjaResponse (some d) s).2 =
        [Event.initialRender Provider.CNPJA d
            (updateTaxConsensus "CNPJA" d s.consensus)] ∧
      (handleCnpjaResponse (some d) s).1.hasRendered = true) ∧
    (∀ (s : OrchestratorState) (d : ApiData), s.hasRendered = true →
      (∀ q dq c, Event.initialRender q dq c ∉ (handleCnpjaResponse (some d) s).2) ∧
      (∀ q dq c, Event.initialRender q dq c ∉ (handleMinhaReceitaResponse (some d) s).2) ∧
      (handleCnpjaResponse (some d) s).2 =
        Event.consensusDisplay
            (getTaxRegimeInfo (updateTaxConsensus "CNPJA" d s.consensus)).text ::
          (match s.receitaWsDataCache with
           | some rw => [Event.ieUpdate (some d) rw.uf]
           | none => []) ∧
      (handleMinhaReceitaResponse (some d) s).2 =
        [Event.consensusDisplay
          (getTaxRegimeInfo (updateTaxConsensus "MinhaReceita" d s.consensus)).text]) := by
  refine ⟨?_, ?_, ?_⟩
  · intro s d h1 h2
    simp [handleMinhaReceitaResponse, updateTaxConsensusStep, h1, h2]
  · intro s d h1 h2
    simp [handleCnpjaResponse, updateTaxConsensusStep, h1, h2]
  · intro s d h1
    have hc : (handleCnpjaResponse (some d) s).2 =
        Event.consensusDisplay
            (getTaxRegimeInfo (updateTaxConsensus "CNPJA" d s.consensus)).text ::
          (match s.receitaWsDataCache with
           | some rw => [Event.ieUpdate (some d) rw.uf]
           | none => []) := by
      cases hrw : s.receitaWsDataCache with
      | some rw => simp [handleCnpjaResponse, updateTaxConsensusStep, h1, hrw]
      | none => simp [handleCnpjaResponse, updateTaxConsensusStep, h1, hrw]
    have hm : (handleMinhaReceitaResponse (some d) s).2 =
        [Event.consensusDisplay
          (getTaxRegimeInfo (updateTaxConsensus "MinhaReceita" d s.consensus)).text] := by
      simp [handleMinhaReceitaResponse, updateTaxConsensusStep, h1]
    refine ⟨?_, ?_, hc, hm⟩
    · intro q dq c
      rw [hc]
      cases s.receitaWsDataCache <;> simp
    · intro q dq c
      rw [hm]
      simp

theorem claim_C5_witness :
    (handleMinhaReceitaResponse (some {}) initState).2 =
      [Event.initialRender Provider.MinhaReceita {}
          (updateTaxConsensus "MinhaReceita" {} initState.consensus),
       Event.warningMessage
          "Exibindo dados preliminares. Atualizando com a fonte principal..."] ∧
    (handleMinhaReceitaResponse (some {}) initState).1.hasRendered = true :=
  claim_C5_amended.1 initState {} rfl rfl

theorem runRaceFrom_append (o : Provider → Option ApiData) (l₁ l₂ : List Provider) :
    ∀ s, runRaceFrom o s (l₁ ++ l₂) =
      ((runRaceFrom o (runRaceFrom o s l₁).1 l₂).1,
       (runRaceFrom o s l₁).2 ++ (runRaceFrom o (runRaceFrom o s l₁).1 l₂).2) := by
  induction l₁ with
  | nil => intro s; simp [runRaceFrom]
  | cons p l₁ ih =>
    intro s
    simp only [List.cons_append, runRaceFrom, List.append_eq]
    rw [ih (stepRace o s p).1]
    simp [List.append_assoc]

theorem stepRace_hasRendered_mono (o : Provider → Option ApiData)
    (s : OrchestratorState) (p : Provider) (h : s.hasRendered = true) :
    (stepRace o s p).1.hasRendered = true := by
  cases p with
  | CNPJA =>
    cases ho : o Provider.CNPJA with
    | none => simp [stepRace, handleCnpjaResponse, handleFailure, ho, h]
    | some d =>
      simp only [stepRace, handleCnpjaResponse, ho, updateTaxConsensusStep]
      split
      · simpa using h
      · split <;> simp_all
  | ReceitaWS =>
    cases ho : o Provider.ReceitaWS with
    | none => simp [stepRace, handleReceitaWsResponse, handleFailure, ho, h]
    | some d => simp [stepRace, handleReceitaWsResponse, ho, updateTaxConsensusStep]
  | MinhaReceita =>
    cases ho : o Provider.MinhaReceita with
    | none => simp [stepRace, handleMinhaReceitaResponse, handleFailure, ho, h]
    | some d =>
      simp only [stepRace, handleMinhaReceitaResponse, ho, updateTaxConsensusStep]
      split <;> simp_all

theorem stepRace_inv (o : Provider → Option ApiData)
    (s : OrchestratorState) (p : Provider)
    (hinv : s.receitaWsDataCache ≠ none → s.hasRendered = true) :
    (stepRace o s p).1.receitaWsDataCache ≠ none →
      (stepRace o s p).1.hasRendered = true := by
  cases p with
  | CNPJA =>
    cases ho : o Provider.CNPJA with
    | none => simpa [stepRace, handleCnpjaResponse, handleFailure, ho] using hinv
    | some d =>
      simp only [stepRace, handleCnpjaResponse, ho, updateTaxConsensusStep]
      split
      · next rw₀ heq => simp_all
      · split <;> simp_all
  | ReceitaWS =>
    cases ho : o Provider.ReceitaWS with
    | none => simpa [stepRace, handleReceitaWsResponse, handleFailure, ho] using hinv
    | some d => simp [stepRace, handleReceitaWsResponse, ho, updateTaxConsensusStep]
  | MinhaReceita =>
    cases ho : o Provider.MinhaReceita with
    | none => simpa [stepRace, handleMinhaReceitaResponse, handleFailure, ho] using hinv
    | some d =>
      simp only [stepRace, handleMinhaReceitaResponse, ho, updateTaxConsensusStep]
      split <;> simp_all

theorem stepRace_success_renders (o : Provider → Option ApiData)
    (s : OrchestratorState) (p : Provider) (d : ApiData)
    (hinv : s.receitaWsDataCache ≠ none → s.hasRendered = true)
    (hd : o p = some d) :
    (stepRace o s p).1.hasRendered = true := by
  cases p with
  | CNPJA =>
    simp only [stepRace, handleCnpjaResponse, hd, updateTaxConsensusStep]
    split
    · next rw₀ heq => simp_all
    · split <;> simp_all
  | ReceitaWS =>
    simp [stepRace, handleReceitaWsResponse, hd, updateTaxConsensusStep]
  | MinhaReceita =>
    simp only [stepRace, handleMinhaReceitaResponse, hd, updateTaxConsensusStep]
    split
    · simp
    · next hcond =>
      cases hren : s.hasRendered with
      | true => rfl
      | false =>
        have hrw : s.receitaWsDataCache ≠ none := fun hn => hcond ⟨hn, hren⟩
        have h2 := hinv hrw
        rw [hren] at h2
        exact absurd h2 (by simp)

theorem runRaceFrom_inv (o : Provider → Option ApiData) :
    ∀ (order : List Provider) (s : OrchestratorState),
      (s.receitaWsDataCache ≠ none → s.hasRendered = true) →
      ((runRaceFrom o s order).1.receitaWsDataCache ≠ none →
        (runRaceFrom o s order).1.hasRendered = true) := by
  intro order
  induction order with
  | nil => intro s h; exact h
  | cons p rest ih =>
    intro s h
    exact ih (stepRace o s p).1 (stepRace_inv o s p h)

theorem runRaceFrom_rendered_mono (o : Provider → Option ApiData) :
    ∀ (order : List Provider) (s : OrchestratorState), s.hasRendered = true →
      (runRaceFrom o s order).1.hasRendered = true := by
  intro order
  induction order with
  | nil => intro s h; exact h
  | cons p rest ih =>
    intro s h
    exact ih (stepRace o s p).1 (stepRace_hasRendered_mono o s p h)

theorem runRaceFrom_rendered_of_success (o : Provider → Option ApiData)
    (pre : List Provider) (p : Provider) (dp : ApiData) (hdp : o p = some dp) :
    p ∈ pre → ∀ s : OrchestratorState,
      (s.receitaWsDataCache ≠ none → s.hasRendered = true) →
      (runRaceFrom o s pre).1.hasRendered = true := by
  induction pre with
  | nil => intro hp; exact absurd hp (List.not_mem_nil p)
  | cons q rest ih =>
    intro hp s hinv
    rcases List.mem_cons.mp hp with rfl | hmem
    · have hr := stepRace_success_renders o s p dp hinv hdp
      exact runRaceFrom_rendered_mono o rest (stepRace o s p).1 hr
    · exact ih hmem (stepRace o s q).1 (stepRace_inv o s q hinv)

theorem stepRace_render_emits (o : Provider → Option ApiData)
    (s : OrchestratorState) (p : Provider) (h0 : s.hasRendered = false)
    (h1 : (stepRace o s p).1.hasRendered = true) :
    ∃ dq c, Event.initialRender p dq c ∈ (stepRace o s p).2 := by
  cases p with
  | CNPJA =>
    cases ho : o Provider.CNPJA with
    | none =>
      simp [stepRace, handleCnpjaResponse, handleFailure, ho, h0] at h1
    | some d =>
      simp only [stepRace, handleCnpjaResponse, ho, updateTaxConsensusStep] at h1 ⊢
      split at h1
      · simp_all
      · split at h1
        · simp_all
        · refine ⟨d, updateTaxConsensus "CNPJA" d s.consensus, ?_⟩
          simp_all
  | ReceitaWS =>
    cases ho : o Provider.ReceitaWS with
    | none =>
      simp [stepRace, handleReceitaWsResponse, handleFailure, ho, h0] at h1
    | some d =>
      refine ⟨d, updateTaxConsensus "ReceitaWS" d s.consensus, ?_⟩
      simp [stepRace, handleReceitaWsResponse, ho, updateTaxConsensusStep]
  | MinhaReceita =>
    cases ho : o Provider.MinhaReceita with
    | none =>
      simp [stepRace, handleMinhaReceitaResponse, handleFailure, ho, h0] at h1
    | some d =>
      simp only [stepRace, handleMinhaReceitaResponse, ho, updateTaxConsensusStep] at h1 ⊢
      split at h1
      · refine ⟨d, updateTaxConsensus "MinhaReceita" d s.consensus, ?_⟩
        simp_all
      · simp_all

theorem runRaceFrom_render_source (o : Provider → Option ApiData) :
    ∀ (order : List Provider) (s : OrchestratorState), s.hasRendered = false →
      (runRaceFrom o s order).1.hasRendered = true →
      ∃ q dq c, q ∈ order ∧ Event.initialRender q dq c ∈ (runRaceFrom o s order).2 := by
  intro order
  induction order with
  | nil =>
    intro s h0 h1
    have : s.hasRendered = true := h1
    rw [h0] at this
    exact absurd this (by simp)
  | cons p rest ih =>
    intro s h0 h1
    cases hmid : (stepRace o s p).1.hasRendered with
    | true =>
      obtain ⟨dq, c, hm⟩ := stepRace_render_emits o s p h0 hmid
      exact ⟨p, dq, c, List.mem_cons_self p rest,
        by simp only [runRaceFrom]; exact List.mem_append_left _ hm⟩
    | false =>
      have h1' : (runRaceFrom o (stepRace o s p).1 rest).1.hasRendered = true := h1
      obtain ⟨q, dq, c, hq, hm⟩ := ih (stepRace o s p).1 hmid h1'
      exact ⟨q, dq, c, List.mem_cons_of_mem p hq,
        by simp only [runRaceFrom]; exact List.mem_append_right _ hm⟩

theorem stepRace_cnpja_cache (o : Provider → Option ApiData)
    (s : OrchestratorState) (p : Provider) (dc : ApiData)
    (hdc : o Provider.CNPJA = some dc)
    (h : s.cnpjaDataCache = some dc ∨ p = Provider.CNPJA) :
    (stepRace o s p).1.cnpjaDataCache = some dc := by
  cases p with
  | CNPJA =>
    simp only [stepRace, handleCnpjaResponse, hdc, updateTaxConsensusStep]
    split
    · simp
    · split <;> simp
  | ReceitaWS =>
    have hc : s.cnpjaDataCache = some dc := h.resolve_right (by simp)
    cases ho : o Provider.ReceitaWS with
    | none => simp [stepRace, handleReceitaWsResponse, handleFailure, ho, hc]
    | some d => simp [stepRace, handleReceitaWsResponse, ho, updateTaxConsensusStep, hc]
  | MinhaReceita =>
    have hc : s.cnpjaDataCache = some dc := h.resolve_right (by simp)
    cases ho : o Provider.MinhaReceita with
    | none => simp [stepRace, handleMinhaReceitaResponse, handleFailure, ho, hc]
    | some d =>
      simp only [stepRace, handleMinhaReceitaResponse, ho, updateTaxConsensusStep]
      split <;> simp [hc]

theorem runRaceFrom_cnpja_cache (o : Provider → Option ApiData) (dc : ApiData)
    (hdc : o Provider.CNPJA = some dc) :
    ∀ (order : List Provider) (s : OrchestratorState),
      (s.cnpjaDataCache = some dc ∨ Provider.CNPJA ∈ order) →
      (runRaceFrom o s order).1.cnpjaDataCache = some dc := by
  intro order
  induction order with
  | nil =>
    intro s h
    exact h.resolve_right (by simp)
  | cons p rest ih =>
    intro s h
    rcases h with hc | hmem
    · exact ih (stepRace o s p).1 (Or.inl (stepRace_cnpja_cache o s p dc hdc (Or.inl hc)))
    · rcases List.mem_cons.mp hmem with hpc | hmem₂
      · exact ih (stepRace o s p).1
          (Or.inl (stepRace_cnpja_cache o s p dc hdc (Or.inr hpc.symm)))
      · exact ih (stepRace o s p).1 (Or.inr hmem₂)

theorem handleReceitaWs_events (s : OrchestratorState) (rd : ApiData) :
    (handleReceitaWsResponse (some rd) s).2 =
      [Event.consensusDisplay
          (getTaxRegimeInfo (updateTaxConsensus "ReceitaWS" rd s.consensus)).text,
       Event.initialRender Provider.ReceitaWS rd
          (updateTaxConsensus "ReceitaWS" rd s.consensus),
       Event.ieUpdate s.cnpjaDataCache rd.uf] := by
  simp [handleReceitaWsResponse, updateTaxConsensusStep]

/-- C4: whenever the authoritative provider (ReceitaWS) resolves success
after a non-authoritative provider has already succeeded (hence after the
initial render), the orchestrator (1) is in a rendered state, whose render
(2) came from a non-authoritative provider; its ReceitaWS step (3) emits a
full primary render from the authoritative record plus the
state-registrations merge keyed by the authoritative record's `uf` — not a
supplementary-only update; (4) the merge carries CNPJ.A's already-resolved
payload whenever CNPJ.A succeeded earlier; and (5) the full run's trace is
exactly the pre-arrival events followed by these override events. -/
theorem claim_C4_authoritative_override (o : Provider → Option ApiData)
    (pre post : List Provider) (p : Provider) (dp rd : ApiData)
    (hp : p ∈ pre) (_hpna : p ≠ Provider.ReceitaWS) (hnrw : Provider.ReceitaWS ∉ pre)
    (hdp : o p = some dp) (hrd : o Provider.ReceitaWS = some rd) :
    (runRaceFrom o initState pre).1.hasRendered = true ∧
    (∃ q dq cq, q ≠ Provider.ReceitaWS ∧ q ∈ pre ∧
      Event.initialRender q dq cq ∈ (runRaceFrom o initState pre).2) ∧
    (stepRace o (runRaceFrom o initState pre).1 Provider.ReceitaWS).2 =
      [Event.consensusDisplay
          (getTaxRegimeInfo (updateTaxConsensus "ReceitaWS" rd
            (runRaceFrom o initState pre).1.consensus)).text,
       Event.initialRender Provider.ReceitaWS rd
          (updateTaxConsensus "ReceitaWS" rd (runRaceFrom o initState pre).1.consensus),
       Event.ieUpdate (runRaceFrom o initState pre).1.cnpjaDataCache rd.uf] ∧
    (Provider.CNPJA ∈ pre → ∀ dc, o Provider.CNPJA = some dc →
      (runRaceFrom o initState pre).1.cnpjaDataCache = some dc) ∧
    (runRace o (pre ++ Provider.ReceitaWS :: post)).2 =
      (runRaceFrom o initState pre).2 ++
      (stepRace o (runRaceFrom o initState pre).1 Provider.ReceitaWS).2 ++
      (runRaceFrom o (stepRace o (runRaceFrom o initState pre).1 Provider.ReceitaWS).1 post).2 := by
  have hinv0 : initState.receitaWsDataCache ≠ none → initState.hasRendered = true :=
    fun h => absurd rfl h
  have hrendered : (runRaceFrom o initState pre).1.hasRendered = true :=
    runRaceFrom_rendered_of_success o pre p dp hdp hp initState hinv0
  refine ⟨hrendered, ?_, ?_, ?_, ?_⟩
  · obtain ⟨q, dq, c, hq, hm⟩ := runRaceFrom_render_source o pre initState rfl hrendered
    exact ⟨q, dq, c, fun hqr => hnrw (hqr ▸ hq), hq, hm⟩
  · have e : stepRace o (runRaceFrom o initState pre).1 Provider.ReceitaWS =
        handleReceitaWsResponse (o Provider.ReceitaWS) (runRaceFrom o initState pre).1 := rfl
    rw [e, hrd, handleReceitaWs_events]
  · intro hc dc hdc
    exact runRaceFrom_cnpja_cache o dc hdc pre initState (Or.inr hc)
  · have e : runRace o (pre ++ Provider.ReceitaWS :: post) =
        runRaceFrom o initState (pre ++ Provider.ReceitaWS :: post) := rfl
    rw [e, runRaceFrom_append o pre (Provider.ReceitaWS :: post) initState]
    simp only [runRaceFrom]
    simp [List.append_assoc]

theorem claim_C4_witness :
    (runRaceFrom (fun q => match q with
        | Provider.MinhaReceita => some {}
        | Provider.ReceitaWS => some { uf := some "SP" }
        | Provider.CNPJA => none)
      initState [Provider.MinhaReceita]).1.hasRendered = true :=
  (claim_C4_authoritative_override
    (fun q => match q with
      | Provider.MinhaReceita => some {}
      | Provider.ReceitaWS => some { uf := some "SP" }
      | Provider.CNPJA => none)
    [Provider.MinhaReceita] [Provider.CNPJA] Provider.MinhaReceita {} { uf := some "SP" }
    (by decide) (by decide) (by decide) rfl rfl).1
